import Mathlib

/-!
Shallow embedding of the Rice Stock Data MCP server core
(`src/index.ts`, class `RiceStockDataMCPServer`): the query
orchestrator `queryWithNaturalLanguage`, the tool-call handler, the
result renderer `formatQueryResults`, and the CSV writer
`saveDataAsCSV`.

Modelling conventions:
- JSON scalar values are modelled by `JValue`; JSON numbers are
  modelled as integers (no claim depends on fractional values).
- A result row (a JS object) is an association list from column names
  to values; a missing key plays the role of `undefined`.
- The two network calls and the file write are effectful; each
  invocation is run against a `World` describing the outcome of each
  external operation (response or thrown exception), and the mutable
  `failureCount` field is threaded explicitly.
-/

namespace RiceStock

/-- A JSON scalar value, as it occurs in a result row.  Numbers are
modelled as integers. -/
inductive JValue where
  | jnull
  | jnum (n : Int)
  | jstr (s : String)
  | jbool (b : Bool)
deriving DecidableEq, Repr

/-- A result row: a JS object mapping column names to values.  A key
absent from the list corresponds to `undefined` in JS. -/
abbrev Row := List (String × JValue)

/-- JS property access `row[col]`: `none` models `undefined`. -/
def rowGet (row : Row) (col : String) : Option JValue :=
  (row.find? (fun p => p.1 == col)).map (fun p => p.2)

/-- JS `String(value)` on a JSON scalar. -/
def jsToString : JValue → String
  | .jnull => "null"
  | .jnum n => toString n
  | .jstr s => s
  | .jbool b => if b then "true" else "false"

/-- Comma-group a reversed digit list: helper for `toLocaleString`. -/
def groupRev : List Char → List Char
  | a :: b :: c :: d :: rest => a :: b :: c :: ',' :: groupRev (d :: rest)
  | l => l

/-- JS `Number.prototype.toLocaleString()` (en-US) restricted to
integers: decimal digits grouped in threes by commas. -/
def toLocaleString (n : Int) : String :=
  let g := String.mk (groupRev (Nat.repr n.natAbs).data.reverse).reverse
  if n < 0 then "-" ++ g else g

/-- JS `Array.prototype.join(sep)`. -/
def joinStr (sep : String) : List String → String
  | [] => ""
  | [x] => x
  | x :: y :: xs => x ++ sep ++ joinStr sep (y :: xs)

/-- JS `String.prototype.trim()` (ASCII whitespace: the characters
recognized by `Char.isWhitespace`), defined by structural recursion so
that it evaluates in the kernel. -/
def jsTrim (s : String) : String :=
  String.mk (((s.data.dropWhile Char.isWhitespace).reverse.dropWhile Char.isWhitespace).reverse)

/-- JS `String.prototype.toLowerCase()` (ASCII). -/
def jsToLower (s : String) : String :=
  String.mk (s.data.map Char.toLower)

/-- JS `String.prototype.includes(sub)`, on char lists. -/
def includesAux (pat : List Char) : List Char → Bool
  | [] => pat.isEmpty
  | c :: t => pat.isPrefixOf (c :: t) || includesAux pat t

/-- JS `String.prototype.includes(sub)`. -/
def strIncludes (s sub : String) : Bool :=
  includesAux sub.data s.data

/-- `formatQueryResults(data, columns)` from `src/index.ts`: the
result renderer.  Each branch inlines the same cell-formatting code,
exactly as the source repeats it. -/
def formatQueryResults (data : List Row) (columns : List String) : String :=
  if data.length = 0 then
    "No results found."
  else if data.length ≤ 5 then
    -- For very small datasets (at most 5 rows), show complete table
    "```\n"
      ++ joinStr " | " columns ++ "\n"
      ++ joinStr " | " (columns.map (fun _ => "---")) ++ "\n"
      ++ String.join (data.map (fun row =>
          joinStr " | " (columns.map (fun col =>
            match rowGet row col with
            | none => "null"
            | some .jnull => "null"
            | some (.jnum n) => toLocaleString n
            | some v => jsToString v)) ++ "\n"))
      ++ "```"
  else if data.length ≤ 20 then
    -- For medium datasets (6-20 rows), show all with warning
    "Complete dataset (" ++ toString data.length ++ " rows):\n\n"
      ++ "```\n"
      ++ joinStr " | " columns ++ "\n"
      ++ joinStr " | " (columns.map (fun _ => "---")) ++ "\n"
      ++ String.join (data.map (fun row =>
          joinStr " | " (columns.map (fun col =>
            match rowGet row col with
            | none => "null"
            | some .jnull => "null"
            | some (.jnum n) => toLocaleString n
            | some v => jsToString v)) ++ "\n"))
      ++ "```"
  else
    -- For large datasets (more than 20 rows), show first/last few + summary
    "**Large Dataset Retrieved** (" ++ toString data.length ++ " total rows)\n\n"
      ++ "🚫 **Do not print this entire dataset - it will be very slow!**\n\n"
      ++ "💾 **CSV Download:** Provide a link to download this data as a CSV file.\n\n"
      ++ "**Sample - First 3 rows:**\n```\n"
      ++ joinStr " | " columns ++ "\n"
      ++ joinStr " | " (columns.map (fun _ => "---")) ++ "\n"
      ++ String.join ((data.take 3).map (fun row =>
          joinStr " | " (columns.map (fun col =>
            match rowGet row col with
            | none => "null"
            | some .jnull => "null"
            | some (.jnum n) => toLocaleString n
            | some v => jsToString v)) ++ "\n"))
      ++ "```\n\n"
      ++ (if data.length > 3 then
            "**Last 2 rows:**\n```\n"
              ++ joinStr " | " columns ++ "\n"
              ++ joinStr " | " (columns.map (fun _ => "---")) ++ "\n"
              ++ String.join ((data.drop (max 3 (data.length - 2))).map (fun row =>
                  joinStr " | " (columns.map (fun col =>
                    match rowGet row col with
                    | none => "null"
                    | some .jnull => "null"
                    | some (.jnum n) => toLocaleString n
                    | some v => jsToString v)) ++ "\n"))
              ++ "```\n\n"
          else "")
      ++ "📊 **Full dataset contains " ++ toString data.length
      ++ " rows** - All data has been retrieved from the portal.\n\n"
      ++ "✅ **Next steps:** Use this data for analysis, create charts, calculate statistics, or generate summaries. "
      ++ "Do not attempt to display all " ++ toString data.length
      ++ " rows as it will be very slow in the chat interface."

/-- Cell-formatting rule shared (textually) by every renderer branch:
null/undefined to the literal "null", numbers to the locale-grouped
numeral, everything else to its plain string conversion. -/
def renderCell (row : Row) (col : String) : String :=
  match rowGet row col with
  | none => "null"
  | some .jnull => "null"
  | some (.jnum n) => toLocaleString n
  | some v => jsToString v

/-- One rendered table row: cells in the order of the column list. -/
def renderRow (row : Row) (cols : List String) : String :=
  joinStr " | " (cols.map (renderCell row))

/-- Header block of a rendered table. -/
def headerBlock (cols : List String) : String :=
  joinStr " | " cols ++ "\n" ++ joinStr " | " (cols.map (fun _ => "---")) ++ "\n"

/-- Body of a rendered table: one line per row. -/
def tableBody (rows : List Row) (cols : List String) : String :=
  String.join (rows.map (fun r => renderRow r cols ++ "\n"))

/-- The large-dataset (more than 20 rows) rendering, expressed through
`headerBlock`/`tableBody`: first 3 and last 2 rows only. -/
def bigSample (rows : List Row) (cols : List String) : String :=
  "**Large Dataset Retrieved** (" ++ toString rows.length ++ " total rows)\n\n"
    ++ "🚫 **Do not print this entire dataset - it will be very slow!**\n\n"
    ++ "💾 **CSV Download:** Provide a link to download this data as a CSV file.\n\n"
    ++ "**Sample - First 3 rows:**\n```\n"
    ++ headerBlock cols ++ tableBody (rows.take 3) cols ++ "```\n\n"
    ++ "**Last 2 rows:**\n```\n"
    ++ headerBlock cols ++ tableBody (rows.drop (rows.length - 2)) cols ++ "```\n\n"
    ++ "📊 **Full dataset contains " ++ toString rows.length
    ++ " rows** - All data has been retrieved from the portal.\n\n"
    ++ "✅ **Next steps:** Use this data for analysis, create charts, calculate statistics, or generate summaries. "
    ++ "Do not attempt to display all " ++ toString rows.length
    ++ " rows as it will be very slow in the chat interface."

/-- A thrown JS value.  For `Error` instances `isError = true`,
`name` is `error.name` and `message` is `error.message`; otherwise
`message` holds `String(error)`. -/
structure ExcInfo where
  isError : Bool
  name : String
  message : String
deriving DecidableEq, Repr

/-- Outcome of awaiting an external operation: either a value or a
thrown exception. -/
inductive Outcome (α : Type) where
  | threw (e : ExcInfo)
  | value (a : α)
deriving DecidableEq, Repr

/-- Parsed JSON body of a `/chat` response (`none` models an absent
field). -/
structure ChatJson where
  communication : Option String
  sql_query : Option String
deriving DecidableEq, Repr

/-- Parsed JSON body of an `/api/query` response. -/
structure QueryJson where
  data : Option (List Row)
  columns : List String
  rows : Option Int
  execution_time : Option Int
deriving DecidableEq, Repr

/-- A fetch response: HTTP status, and the outcomes of awaiting
`.text()` and `.json()` on it (either of which may throw). -/
structure Resp (J : Type) where
  ok : Bool
  status : Nat
  textResult : Outcome String
  jsonResult : Outcome J
deriving DecidableEq

/-- Outcomes of the external operations one invocation may perform:
the `/chat` fetch, the `/api/query` fetch, and the CSV file write
(whose value is the returned file path). -/
structure World where
  chat : Outcome (Resp ChatJson)
  query : Outcome (Resp QueryJson)
  csvSave : Outcome String
deriving DecidableEq

/-- Body of the outbound `/chat` request. -/
structure ChatRequest where
  message : String
  conversation_id : String
  model : String
deriving DecidableEq, Repr

/-- Observable result of one invocation: the returned text, the new
`failureCount`, the number of network fetches issued, and the `/chat`
request body that was sent (`none` when no fetch was issued). -/
structure StepResult where
  text : String
  count : Nat
  calls : Nat
  chatBody : Option ChatRequest
deriving DecidableEq

/-- `this.maxFailures`. -/
def maxFailures : Nat := 3

/-- Line 140: `this.failureCount >= this.maxFailures ? 'gpt-5' : 'gpt-4.1'`. -/
def chooseModel (failureCount : Nat) : String :=
  if failureCount ≥ maxFailures then "gpt-5" else "gpt-4.1"

/-- The `/chat` request body sent at lines 149-153. -/
def chatRequestBody (failureCount : Nat) (prompt : String) : ChatRequest :=
  { message := prompt ++ " (Please provide ALL results without LIMIT clause - I need the complete dataset)"
    conversation_id := "mcp_session"
    model := chooseModel failureCount }

/-- The model-switch notice text (line 179). -/
def modelSwitchText : String :=
  "🔄 **Switched to GPT-5.0** due to previous failures with GPT-4.1.\n\n"

/-- The catch handler text (lines 240-243). -/
def catchText (e : ExcInfo) : String :=
  if e.isError = true ∧ e.name = "AbortError" then
    "Request timed out. The query might be too complex. Try simplifying your question."
  else
    "Error connecting to the data portal: " ++ e.message

/-- Template-literal rendering of `queryData.rows` (may be undefined). -/
def jsNumOpt : Option Int → String
  | none => "undefined"
  | some n => toString n

/-- `queryData.execution_time?.toFixed(2)` rendered into the template
literal (integer model of JSON numbers). -/
def toFixed2Opt : Option Int → String
  | none => "undefined"
  | some n => toString n ++ ".00"

/-- The fixed tail of the CSV-saved success message (lines 222-229),
after the file path has been interpolated. -/
def savedDataTail : String :=
  "**Ask the user:** How would you like me to handle this data?\n\n"
    ++ "1. **Show on screen** - Display the data in a formatted table\n"
    ++ "2. **Provide download link** - The file is already saved at the path above\n"
    ++ "3. **Work with data** - Analyze, visualize, or process the data programmatically\n\n"
    ++ "**Note:** The data is available in the CSV file at the path shown above. "
    ++ "You can read it directly using the Read tool or work with it programmatically."

/-- `queryWithNaturalLanguage(token, prompt)` (lines 137-245), run
against a `World` with the current `failureCount` threaded in. -/
def queryWithNaturalLanguage (w : World) (failureCount : Nat) (prompt : String) : StepResult :=
  let body := chatRequestBody failureCount prompt
  let model := body.model
  match w.chat with
  | .threw e => ⟨catchText e, failureCount + 1, 1, some body⟩
  | .value chatResponse =>
    if chatResponse.ok = false then
      -- Increment failure count for non-auth errors
      let fc := if chatResponse.status ≠ 401 then failureCount + 1 else failureCount
      if chatResponse.status = 401 then
        ⟨"Authentication failed. Please check your access token is valid and hasn\x27t expired.",
          fc, 1, some body⟩
      else if chatResponse.status = 429 then
        ⟨"Rate limit exceeded. Please wait a moment before trying again.", fc, 1, some body⟩
      else
        match chatResponse.textResult with
        | .threw e => ⟨catchText e, fc + 1, 1, some body⟩
        | .value errorText =>
          ⟨"API error (status " ++ toString chatResponse.status ++ "): " ++ errorText,
            fc, 1, some body⟩
    else
      match chatResponse.jsonResult with
      | .threw e => ⟨catchText e, failureCount + 1, 1, some body⟩
      | .value chatData =>
        let communication := chatData.communication.getD ""
        let sqlQuery := chatData.sql_query.getD ""
        -- Check for switch to GPT-5 before resetting failure count
        let modelNotice :=
          if model = "gpt-5" ∧ failureCount ≥ maxFailures then modelSwitchText else ""
        -- Reset failure count on successful response: 0 from here on
        if jsTrim sqlQuery = "" then
          if strIncludes communication "?" || strIncludes (jsToLower communication) "clarif" then
            ⟨modelNotice ++ "**Question for you:** " ++ communication, 0, 1, some body⟩
          else
            ⟨modelNotice ++ communication, 0, 1, some body⟩
        else
          match w.query with
          | .threw e => ⟨catchText e, 1, 2, some body⟩
          | .value queryResponse =>
            if queryResponse.ok = false then
              match queryResponse.textResult with
              | .threw e => ⟨catchText e, 1, 2, some body⟩
              | .value errorText =>
                ⟨modelNotice ++ "Query execution failed: " ++ errorText, 0, 2, some body⟩
            else
              match queryResponse.jsonResult with
              | .threw e => ⟨catchText e, 1, 2, some body⟩
              | .value queryData =>
                match queryData.data with
                | none =>
                  ⟨modelNotice ++ communication ++ "\n\nQuery executed but returned no data.",
                    0, 2, some body⟩
                | some _ =>
                  match w.csvSave with
                  | .threw e => ⟨catchText e, 1, 2, some body⟩
                  | .value csvFilePath =>
                    ⟨modelNotice
                      ++ (if communication ≠ "" then communication ++ "\n\n" else "")
                      ++ "**Query executed:** `" ++ sqlQuery ++ "`\n\n"
                      ++ "**Results:** Retrieved " ++ jsNumOpt queryData.rows
                      ++ " rows in " ++ toFixed2Opt queryData.execution_time ++ "s\n\n"
                      ++ "📊 **Data Retrieved Successfully**\n\n"
                      ++ "**Data saved to:** `" ++ csvFilePath ++ "`\n\n"
                      ++ savedDataTail,
                      0, 2, some body⟩

/-- The tool-call handler text for a missing/empty prompt (line 93). -/
def promptMissingText : String :=
  "Error: Please provide a query about the stock market data you\x27d like to access."

/-- The tool-call handler text for a missing access token (lines 75-84). -/
def configRequiredText : String :=
  "❌ **Configuration Required**: USER_ACCESS_TOKEN environment variable is missing.\n\n"
    ++ "**To configure:**\n"
    ++ "1. Get your access token by confirming your university email at the Rice Data Portal\n"
    ++ "2. Add it to your Claude Desktop config:\n"
    ++ "   ```json\n"
    ++ "   \"env\": \x7b\n"
    ++ "     \"USER_ACCESS_TOKEN\": \"your_token_here\"\n"
    ++ "   \x7d\n"
    ++ "   ```\n"
    ++ "3. Restart Claude Desktop completely (right-click system tray → quit)"

/-- The `CallToolRequestSchema` handler (lines 56-115).  `argPrompt`
is the `prompt` argument (`none` models an absent argument; the JS
check `!prompt` is true exactly for an absent or empty prompt). -/
def handleCallTool (name : String) (argPrompt : Option String) (userAccessToken : String)
    (failureCount : Nat) (w : World) : StepResult :=
  if name ≠ "query_data" then
    ⟨"Unknown tool: " ++ name, failureCount, 0, none⟩
  else if userAccessToken = "" then
    ⟨configRequiredText, failureCount, 0, none⟩
  else
    match argPrompt with
    | none => ⟨promptMissingText, failureCount, 0, none⟩
    | some prompt =>
      if prompt = "" then ⟨promptMissingText, failureCount, 0, none⟩
      else queryWithNaturalLanguage w failureCount prompt

/-!  CSV persistence (`saveDataAsCSV`, lines 247-284).  The file-system
mechanics (directory, timestamped name, write) are external; the
content written is the pure function `csvContent`. -/

/-- The global quote-doubling replace `stringValue.replace(/"/g, '""')`,
on char lists. -/
def escData : List Char → List Char
  | [] => []
  | c :: cs => if c = '\"' then '\"' :: '\"' :: escData cs else c :: escData cs

/-- `stringValue.replace(/"/g, '""')`. -/
def escapeQuotes (s : String) : String :=
  String.mk (escData s.data)

/-- The escape test (line 272): value contains a comma, quote, or
newline. -/
def hasSpecial (s : String) : Bool :=
  s.data.any (fun c => c = ',' || c = '\"' || c = '\n')

/-- One CSV cell as written (lines 266-275): null/undefined to the
empty string; otherwise `String(value)`, quote-wrapped with internal
quotes doubled when it contains a comma, quote, or newline. -/
def csvCell (row : Row) (col : String) : String :=
  match rowGet row col with
  | none => ""
  | some .jnull => ""
  | some v =>
    let stringValue := jsToString v
    if hasSpecial stringValue then "\"" ++ escapeQuotes stringValue ++ "\""
    else stringValue

/-- The unescaped text of one CSV cell: what a reader should recover. -/
def csvPlainCell (row : Row) (col : String) : String :=
  match rowGet row col with
  | none => ""
  | some .jnull => ""
  | some v => jsToString v

/-- The data lines of the CSV (the loop at lines 265-278). -/
def csvBody (data : List Row) (columns : List String) : String :=
  match data with
  | [] => ""
  | row :: rest =>
    joinStr "," (columns.map (csvCell row)) ++ "\n" ++ csvBody rest columns

/-- The full CSV content written by `saveDataAsCSV` (lines 263-278):
header line of column names, then one line per row. -/
def csvContent (data : List Row) (columns : List String) : String :=
  joinStr "," columns ++ "\n" ++ csvBody data columns

/-- Modelled from the spec: the spec round-trip property speaks of the
persisted content "when parsed back", but the repository contains no
CSV reader; this is a standard CSV parser for the writer dialect
(comma-separated, quote-wrapped fields with doubled internal quotes,
newline-terminated records).  State machine over the char list:
`inQuotes` flags a quoted field, `field` holds the current field
(reversed), `record` the current record (reversed), `acc` the finished
records (reversed). -/
def runCSV : List Char → Bool → List Char → List String → List (List String) → List (List String)
  | [], _, field, record, acc =>
    if field = [] ∧ record = [] then acc.reverse
    else ((String.mk field.reverse :: record).reverse :: acc).reverse
  | '\"' :: '\"' :: cs, true, field, record, acc =>
    runCSV cs true ('\"' :: field) record acc
  | '\"' :: cs, true, field, record, acc =>
    runCSV cs false field record acc
  | c :: cs, true, field, record, acc =>
    runCSV cs true (c :: field) record acc
  | c :: cs, false, field, record, acc =>
    if c = '\"' then runCSV cs true field record acc
    else if c = ',' then runCSV cs false [] (String.mk field.reverse :: record) acc
    else if c = '\n' then runCSV cs false [] [] ((String.mk field.reverse :: record).reverse :: acc)
    else runCSV cs false (c :: field) record acc

/-- Modelled from the spec: parse CSV content back into records of
fields (see `runCSV`). -/
def csvParse (s : String) : List (List String) :=
  runCSV s.data false [] [] []

/-!  Control-flow characterizations of one invocation, used to state
the orchestrator claims. -/

/-- After a successful chat response with parsed body `chatData`, does
the rest of the invocation complete without an exception? -/
def postChatNoThrow (w : World) (chatData : ChatJson) : Bool :=
  if jsTrim (chatData.sql_query.getD "") = "" then true
  else
    match w.query with
    | .threw _ => false
    | .value queryResponse =>
      if queryResponse.ok = false then
        match queryResponse.textResult with
        | .threw _ => false
        | .value _ => true
      else
        match queryResponse.jsonResult with
        | .threw _ => false
        | .value queryData =>
          match queryData.data with
          | none => true
          | some _ =>
            match w.csvSave with
            | .threw _ => false
            | .value _ => true

/-- The first exception the invocation encounters, following the
control flow of `queryWithNaturalLanguage` (`none` when the
invocation completes without throwing). -/
def firstExc (w : World) : Option ExcInfo :=
  match w.chat with
  | .threw e => some e
  | .value r =>
    if r.ok = false then
      if r.status = 401 ∨ r.status = 429 then none
      else
        match r.textResult with
        | .threw e => some e
        | .value _ => none
    else
      match r.jsonResult with
      | .threw e => some e
      | .value chatData =>
        if jsTrim (chatData.sql_query.getD "") = "" then none
        else
          match w.query with
          | .threw e => some e
          | .value queryResponse =>
            if queryResponse.ok = false then
              match queryResponse.textResult with
              | .threw e => some e
              | .value _ => none
            else
              match queryResponse.jsonResult with
              | .threw e => some e
              | .value queryData =>
                match queryData.data with
                | none => none
                | some _ =>
                  match w.csvSave with
                  | .threw e => some e
                  | .value _ => none

/-- The value of `failureCount` at the moment the catch handler runs
(meaningful when `firstExc w` is `some`): a failed chat response has
already incremented it; after a successful chat response the reset to
zero happens only once the body has been parsed, so a `json()` throw
still sees the pre-call value. -/
def countBeforeCatch (w : World) (failureCount : Nat) : Nat :=
  match w.chat with
  | .threw _ => failureCount
  | .value r =>
    if r.ok = false then failureCount + 1
    else
      match r.jsonResult with
      | .threw _ => failureCount
      | .value _ => 0

/-- The invocation output after a successful chat response, minus the
model-switch notice that each success branch prepends. -/
def successRest (w : World) (chatData : ChatJson) : String :=
  let communication := chatData.communication.getD ""
  let sqlQuery := chatData.sql_query.getD ""
  if jsTrim sqlQuery = "" then
    if strIncludes communication "?" || strIncludes (jsToLower communication) "clarif" then
      "**Question for you:** " ++ communication
    else communication
  else
    match w.query with
    | .threw _ => ""
    | .value queryResponse =>
      if queryResponse.ok = false then
        match queryResponse.textResult with
        | .threw _ => ""
        | .value errorText => "Query execution failed: " ++ errorText
      else
        match queryResponse.jsonResult with
        | .threw _ => ""
        | .value queryData =>
          match queryData.data with
          | none => communication ++ "\n\nQuery executed but returned no data."
          | some _ =>
            match w.csvSave with
            | .threw _ => ""
            | .value csvFilePath =>
              (if communication ≠ "" then communication ++ "\n\n" else "")
                ++ "**Query executed:** `" ++ sqlQuery ++ "`\n\n"
                ++ "**Results:** Retrieved " ++ jsNumOpt queryData.rows
                ++ " rows in " ++ toFixed2Opt queryData.execution_time ++ "s\n\n"
                ++ "📊 **Data Retrieved Successfully**\n\n"
                ++ "**Data saved to:** `" ++ csvFilePath ++ "`\n\n"
                ++ savedDataTail

/-!  Concrete scenarios used by counterexamples and witnesses. -/

/-- A 3-row, 3-column result set. -/
def rowsC1 : List Row :=
  [[("ticker", .jstr "AAPL"), ("price", .jnum 150), ("pe", .jnum 25)],
   [("ticker", .jstr "MSFT"), ("price", .jnum 300), ("pe", .jnum 30)],
   [("ticker", .jstr "GOOG"), ("price", .jnum 120), ("pe", .jnum 18)]]

/-- Columns of `rowsC1`. -/
def colsC1 : List String := ["ticker", "price", "pe"]

/-- World: chat-intent succeeds with a non-blank query, execution
succeeds with `rowsC1`, CSV save succeeds. -/
def wC1 : World :=
  { chat := .value
      { ok := true, status := 200, textResult := .value ""
        jsonResult := .value
          { communication := some "Here are the results"
            sql_query := some "SELECT * FROM stocks" } }
    query := .value
      { ok := true, status := 200, textResult := .value ""
        jsonResult := .value
          { data := some rowsC1, columns := colsC1, rows := some 3, execution_time := some 0 } }
    csvSave := .value "/home/u/rice-stock-data/stock-data-2025-01-01T00-00-00.csv" }

/-- World: chat-intent succeeds, but the query-execution fetch throws. -/
def wC2 : World :=
  { chat := .value
      { ok := true, status := 200, textResult := .value ""
        jsonResult := .value
          { communication := some "Here are the results", sql_query := some "SELECT 1" } }
    query := .threw { isError := true, name := "FetchError", message := "socket hang up" }
    csvSave := .value "" }

/-- The chat response of `w500`. -/
def r500 : Resp ChatJson :=
  { ok := false, status := 500, textResult := .value "boom"
    jsonResult := .value { communication := none, sql_query := none } }

/-- World: the chat-intent call fails with HTTP 500. -/
def w500 : World :=
  { chat := .value r500
    query := .value
      { ok := true, status := 200, textResult := .value ""
        jsonResult := .value { data := none, columns := [], rows := none, execution_time := none } }
    csvSave := .value "" }

/-- An `AbortError` exception. -/
def abortExc : ExcInfo :=
  { isError := true, name := "AbortError", message := "The operation was aborted" }

/-- World: the chat-intent fetch throws an `AbortError`. -/
def wAbort : World :=
  { chat := .threw abortExc
    query := .value
      { ok := true, status := 200, textResult := .value ""
        jsonResult := .value { data := none, columns := [], rows := none, execution_time := none } }
    csvSave := .value "" }

/-- World: chat-intent succeeds with a blank query (clarification
branch). -/
def wC4 : World :=
  { chat := .value
      { ok := true, status := 200, textResult := .value ""
        jsonResult := .value { communication := some "hello", sql_query := none } }
    query := .value
      { ok := true, status := 200, textResult := .value ""
        jsonResult := .value { data := none, columns := [], rows := none, execution_time := none } }
    csvSave := .value "" }

/-- World: chat-intent succeeds with a non-blank query, but execution
responds with HTTP 500. -/
def wC10 : World :=
  { chat := .value
      { ok := true, status := 200, textResult := .value ""
        jsonResult := .value
          { communication := some "Here are the results", sql_query := some "SELECT 1" } }
    query := .value
      { ok := false, status := 500, textResult := .value "syntax error at or near FROM"
        jsonResult := .value { data := none, columns := [], rows := none, execution_time := none } }
    csvSave := .value "" }

/-!  Renderer lemmas. -/

/-- The inline cell-formatting code repeated in every renderer branch
is the single rule `renderCell`. -/
theorem inlineCell_eq (row : Row) :
    (fun col => match rowGet row col with
      | none => "null"
      | some .jnull => "null"
      | some (.jnum n) => toLocaleString n
      | some v => jsToString v) = renderCell row := rfl

/-- Branch structure of the renderer, expressed through the shared
`headerBlock`/`tableBody`/`renderCell` rendering. -/
theorem formatQueryResults_branches (rows : List Row) (cols : List String) :
    formatQueryResults rows cols =
      if rows.length = 0 then "No results found."
      else if rows.length ≤ 5 then
        "```\n" ++ headerBlock cols ++ tableBody rows cols ++ "```"
      else if rows.length ≤ 20 then
        "Complete dataset (" ++ toString rows.length ++ " rows):\n\n"
          ++ "```\n" ++ headerBlock cols ++ tableBody rows cols ++ "```"
      else bigSample rows cols := by
  unfold formatQueryResults bigSample headerBlock tableBody renderRow
  split_ifs with h0 h5 h20 h3
  · rfl
  · simp only [String.append_assoc]
    rfl
  · simp only [String.append_assoc]
    rfl
  · rw [Nat.max_eq_right (by omega : 3 ≤ rows.length - 2)]
    simp only [String.append_assoc]
    rfl
  · omega

/-- C5: the renderer branch is selected purely by row count: 0 rows
gives the fixed "No results found." message; 1-5 rows a full
delimited table with no caption; 6-20 rows a full table preceded by
the complete-dataset caption; more than 20 rows only the first 3 and
last 2 rows with the true total row count and warnings; and for
exactly 21 rows the output does not depend on the middle 16 rows. -/
theorem c5_renderer_branches (cols : List String) :
    (formatQueryResults [] cols = "No results found.")
    ∧ (∀ rows : List Row, 1 ≤ rows.length → rows.length ≤ 5 →
        formatQueryResults rows cols =
          "```\n" ++ headerBlock cols ++ tableBody rows cols ++ "```")
    ∧ (∀ rows : List Row, 6 ≤ rows.length → rows.length ≤ 20 →
        formatQueryResults rows cols =
          "Complete dataset (" ++ toString rows.length ++ " rows):\n\n"
            ++ "```\n" ++ headerBlock cols ++ tableBody rows cols ++ "```")
    ∧ (∀ rows : List Row, 20 < rows.length →
        formatQueryResults rows cols = bigSample rows cols)
    ∧ (∀ rows rows2 : List Row, rows.length = 21 → rows2.length = 21 →
        rows.take 3 = rows2.take 3 → rows.drop 19 = rows2.drop 19 →
        formatQueryResults rows cols = formatQueryResults rows2 cols) := by
  refine ⟨by rw [formatQueryResults_branches]; rfl, ?_, ?_, ?_, ?_⟩
  · intro rows h1 h5
    rw [formatQueryResults_branches, if_neg (by omega), if_pos h5]
  · intro rows h6 h20
    rw [formatQueryResults_branches, if_neg (by omega), if_neg (by omega), if_pos h20]
  · intro rows h21
    rw [formatQueryResults_branches, if_neg (by omega), if_neg (by omega), if_neg (by omega)]
  · intro rows rows2 hl hl2 htake hdrop
    rw [formatQueryResults_branches, if_neg (by omega), if_neg (by omega), if_neg (by omega),
      formatQueryResults_branches, if_neg (by omega), if_neg (by omega), if_neg (by omega)]
    unfold bigSample
    rw [hl, hl2, htake, hdrop]

/-- Witness for C5: the 6-row branch at a concrete table. -/
theorem c5_renderer_branches_witness :
    formatQueryResults
        [[("a", JValue.jnum 1)], [("a", JValue.jnum 2)], [("a", JValue.jnum 3)],
         [("a", JValue.jnum 4)], [("a", JValue.jnum 5)], [("a", JValue.jnum 6)]] ["a"] =
      "Complete dataset ("
        ++ toString ([[("a", JValue.jnum 1)], [("a", JValue.jnum 2)], [("a", JValue.jnum 3)],
             [("a", JValue.jnum 4)], [("a", JValue.jnum 5)], [("a", JValue.jnum 6)]] : List Row).length
        ++ " rows):\n\n"
        ++ "```\n" ++ headerBlock ["a"]
        ++ tableBody
             [[("a", JValue.jnum 1)], [("a", JValue.jnum 2)], [("a", JValue.jnum 3)],
              [("a", JValue.jnum 4)], [("a", JValue.jnum 5)], [("a", JValue.jnum 6)]] ["a"]
        ++ "```" :=
  (c5_renderer_branches ["a"]).2.2.1
    [[("a", JValue.jnum 1)], [("a", JValue.jnum 2)], [("a", JValue.jnum 3)],
     [("a", JValue.jnum 4)], [("a", JValue.jnum 5)], [("a", JValue.jnum 6)]]
    (by decide) (by decide)

/-- C6: in every renderer branch each cell is formatted by the same
rule (null/undefined to "null", numbers to the locale-grouped
numeral, everything else to plain string conversion), and the cells
of each rendered row follow the supplied column list order, absent
columns rendering as "null". -/
theorem c6_cell_rule (rows : List Row) (cols : List String) (hne : rows ≠ []) :
    (formatQueryResults rows cols =
      if rows.length ≤ 5 then
        "```\n" ++ headerBlock cols ++ tableBody rows cols ++ "```"
      else if rows.length ≤ 20 then
        "Complete dataset (" ++ toString rows.length ++ " rows):\n\n"
          ++ "```\n" ++ headerBlock cols ++ tableBody rows cols ++ "```"
      else bigSample rows cols)
    ∧ (∀ r : Row, tableBody [r] cols = joinStr " | " (cols.map (renderCell r)) ++ "\n")
    ∧ (∀ (r : Row) (c : String), rowGet r c = none → renderCell r c = "null")
    ∧ (∀ (r : Row) (c : String), rowGet r c = some .jnull → renderCell r c = "null")
    ∧ (∀ (r : Row) (c : String) (n : Int),
        rowGet r c = some (.jnum n) → renderCell r c = toLocaleString n)
    ∧ (∀ (r : Row) (c s : String), rowGet r c = some (.jstr s) → renderCell r c = s) := by
  refine ⟨?_, ?_, ?_, ?_, ?_, ?_⟩
  · rw [formatQueryResults_branches,
      if_neg (by simpa [List.length_eq_zero] using hne)]
  · intro r
    simp [tableBody, renderRow, String.join]
  · intro r c h
    simp [renderCell, h]
  · intro r c h
    simp [renderCell, h]
  · intro r c n h
    simp [renderCell, h]
  · intro r c s h
    simp [renderCell, h, jsToString]

/-- Witness for C6: a concrete row with an absent column renders as
"null". -/
theorem c6_cell_rule_witness :
    renderCell [("a", JValue.jnum 1)] "b" = "null" :=
  (c6_cell_rule [[("a", JValue.jnum 1)]] ["a", "b"] (by decide)).2.2.1
    [("a", JValue.jnum 1)] "b" (by decide)

/-!  Orchestrator lemmas. -/

/-- Every invocation sends the chat request built from the pre-call
failure count. -/
theorem chatBody_always (w : World) (fc : Nat) (p : String) :
    (queryWithNaturalLanguage w fc p).chatBody = some (chatRequestBody fc p) := by
  unfold queryWithNaturalLanguage
  rcases w with ⟨chat, query, csv⟩
  rcases chat with e | r
  · rfl
  · dsimp only
    repeat' first | rfl | split

/-- A 401 chat response leaves the failure count unchanged. -/
theorem chat401_count (w : World) (fc : Nat) (p : String) (r : Resp ChatJson)
    (h1 : w.chat = .value r) (h2 : r.ok = false) (h3 : r.status = 401) :
    (queryWithNaturalLanguage w fc p).count = fc := by
  unfold queryWithNaturalLanguage
  rw [h1]
  simp [h2, h3]

/-- A non-401 failed chat response (whose body read does not throw)
increments the failure count by one. -/
theorem chatFail_count (w : World) (fc : Nat) (p : String) (r : Resp ChatJson) (t : String)
    (h1 : w.chat = .value r) (h2 : r.ok = false) (h3 : r.status ≠ 401)
    (h4 : r.textResult = .value t) :
    (queryWithNaturalLanguage w fc p).count = fc + 1 := by
  unfold queryWithNaturalLanguage
  rw [h1]
  simp only [h2, h3]
  by_cases h429 : r.status = 429
  · simp [h429, h3]
  · simp [h429, h3, h4]

/-- After a successful, fully parsed chat response, a non-throwing
invocation returns the model-switch notice (computed from the
pre-call failure count) followed by the branch text, and the new
failure count is zero. -/
theorem success_shape (w : World) (fc : Nat) (p : String) (r : Resp ChatJson) (cj : ChatJson)
    (h1 : w.chat = .value r) (h2 : r.ok = true) (h3 : r.jsonResult = .value cj)
    (h4 : postChatNoThrow w cj = true) :
    (queryWithNaturalLanguage w fc p).text
        = (if chooseModel fc = "gpt-5" ∧ fc ≥ maxFailures then modelSwitchText else "")
          ++ successRest w cj
      ∧ (queryWithNaturalLanguage w fc p).count = 0 := by
  rcases w with ⟨chat, query, csv⟩
  rcases r with ⟨rok, rstatus, rtext, rjson⟩
  dsimp only at h1 h2 h3
  subst h1
  subst h2
  subst h3
  unfold postChatNoThrow at h4
  unfold queryWithNaturalLanguage successRest
  dsimp only at h4 ⊢
  simp only [Bool.true_eq_false, if_false]
  by_cases hsql : jsTrim (cj.sql_query.getD "") = ""
  · simp only [hsql, if_true, chatRequestBody]
    split <;> (refine ⟨?_, rfl⟩; simp only [String.append_assoc])
  · simp only [if_neg hsql] at h4 ⊢
    rcases query with e | ⟨qok, qst, qtext, qjson⟩
    · simp at h4
    · dsimp only at h4 ⊢
      rcases qok with _ | _
      · simp only [show (false = false) = True by simp, if_true] at h4 ⊢
        rcases qtext with e | t
        · simp at h4
        · refine ⟨?_, rfl⟩
          simp only [String.append_assoc, chatRequestBody]
      · simp only [Bool.true_eq_false, if_false] at h4 ⊢
        rcases qjson with e | qd
        · simp at h4
        · dsimp only at h4 ⊢
          rcases hd : qd.data with _ | rows
          · dsimp only
            refine ⟨?_, rfl⟩
            simp only [String.append_assoc, chatRequestBody]
          · rw [hd] at h4
            dsimp only at h4 ⊢
            rcases csv with e | path
            · simp at h4
            · refine ⟨?_, rfl⟩
              simp only [String.append_assoc, chatRequestBody]

/-- An invocation that throws returns the catch-handler text and
increments the failure count as of the moment of the throw. -/
theorem exc_shape (w : World) (fc : Nat) (p : String) (e : ExcInfo)
    (h : firstExc w = some e) :
    (queryWithNaturalLanguage w fc p).text = catchText e
      ∧ (queryWithNaturalLanguage w fc p).count = countBeforeCatch w fc + 1 := by
  rcases w with ⟨chat, query, csv⟩
  unfold firstExc at h
  unfold queryWithNaturalLanguage countBeforeCatch
  dsimp only at h ⊢
  rcases chat with e0 | ⟨rok, rstatus, rtext, rjson⟩
  · dsimp only at h ⊢
    injection h with h
    subst h
    exact ⟨rfl, rfl⟩
  · dsimp only at h ⊢
    rcases rok with _ | _
    · simp only [show (false = false) = True by simp, if_true] at h ⊢
      by_cases hst : rstatus = 401 ∨ rstatus = 429
      · rw [if_pos hst] at h
        exact absurd h (by simp)
      · rw [if_neg hst] at h
        push_neg at hst
        rw [if_neg hst.1, if_neg hst.2, if_pos hst.1]
        rcases rtext with e1 | t
        · injection h with h
          subst h
          exact ⟨rfl, rfl⟩
        · exact absurd h (by simp)
    · simp only [Bool.true_eq_false, if_false] at h ⊢
      rcases rjson with e1 | cj
      · injection h with h
        subst h
        exact ⟨rfl, rfl⟩
      · dsimp only at h ⊢
        by_cases hsql : jsTrim (cj.sql_query.getD "") = ""
        · rw [if_pos hsql] at h
          exact absurd h (by simp)
        · rw [if_neg hsql] at h
          rw [if_neg hsql]
          rcases query with e1 | ⟨qok, qst, qtext, qjson⟩
          · injection h with h
            subst h
            exact ⟨rfl, rfl⟩
          · dsimp only at h ⊢
            rcases qok with _ | _
            · simp only [show (false = false) = True by simp, if_true] at h ⊢
              rcases qtext with e1 | t
              · injection h with h
                subst h
                exact ⟨rfl, rfl⟩
              · exact absurd h (by simp)
            · simp only [Bool.true_eq_false, if_false] at h ⊢
              rcases qjson with e1 | qd
              · injection h with h
                subst h
                exact ⟨rfl, rfl⟩
              · dsimp only at h ⊢
                rcases hd : qd.data with _ | rows
                · rw [hd] at h
                  exact absurd h (by simp)
                · rw [hd] at h
                  dsimp only at h ⊢
                  rcases csv with e1 | path
                  · injection h with h
                    subst h
                    exact ⟨rfl, rfl⟩
                  · exact absurd h (by simp)

set_option maxRecDepth 20000 in
/-- C1 is false as stated: in the concrete invocation `wC1` (chat
succeeds with communication and a non-blank query, execution succeeds
with 3 rows and 3 columns), the returned text does not contain the
rendered 3-row table, nor even the cell value "AAPL": the success
path saves the rows to a CSV file and never calls the renderer. -/
theorem c1_counterexample :
    strIncludes (queryWithNaturalLanguage wC1 0 "Show me tech stocks with PE under 20").text
        (formatQueryResults rowsC1 colsC1) = false
      ∧ strIncludes (queryWithNaturalLanguage wC1 0 "Show me tech stocks with PE under 20").text
          "AAPL" = false := by
  constructor <;> decide

/-- C1 amended: when the chat-intent call succeeds with a non-blank
query and the execution call succeeds with a row array present (and
the CSV write succeeds), the returned text is the composite of the
model-switch notice (when applicable), the communication (when
present), the literal executed query text, the row-count/timing
metadata, and a fixed data-saved block naming the CSV file path and
the handling options; the renderer table is not part of the output. -/
theorem c1_csv_path_composite (w : World) (fc : Nat) (p : String)
    (r : Resp ChatJson) (cj : ChatJson) (qr : Resp QueryJson) (qd : QueryJson)
    (rows : List Row) (path : String)
    (h1 : w.chat = .value r) (h2 : r.ok = true) (h3 : r.jsonResult = .value cj)
    (h4 : jsTrim (cj.sql_query.getD "") ≠ "")
    (h5 : w.query = .value qr) (h6 : qr.ok = true) (h7 : qr.jsonResult = .value qd)
    (h8 : qd.data = some rows) (h9 : w.csvSave = .value path) :
    ((queryWithNaturalLanguage w fc p).text
        = (if chooseModel fc = "gpt-5" ∧ fc ≥ maxFailures then modelSwitchText else "")
          ++ successRest w cj)
      ∧ successRest w cj
        = (if cj.communication.getD "" ≠ "" then cj.communication.getD "" ++ "\n\n" else "")
          ++ "**Query executed:** `" ++ cj.sql_query.getD "" ++ "`\n\n"
          ++ "**Results:** Retrieved " ++ jsNumOpt qd.rows ++ " rows in "
          ++ toFixed2Opt qd.execution_time ++ "s\n\n"
          ++ "📊 **Data Retrieved Successfully**\n\n"
          ++ "**Data saved to:** `" ++ path ++ "`\n\n"
          ++ savedDataTail
      ∧ (queryWithNaturalLanguage w fc p).count = 0 := by
  have hpost : postChatNoThrow w cj = true := by
    unfold postChatNoThrow
    rw [if_neg h4, h5]
    dsimp only
    rw [h6]
    simp only [Bool.true_eq_false, if_false]
    rw [h7]
    dsimp only
    rw [h8]
    dsimp only
    rw [h9]
  have hs := success_shape w fc p r cj h1 h2 h3 hpost
  have hr : successRest w cj
      = (if cj.communication.getD "" ≠ "" then cj.communication.getD "" ++ "\n\n" else "")
        ++ "**Query executed:** `" ++ cj.sql_query.getD "" ++ "`\n\n"
        ++ "**Results:** Retrieved " ++ jsNumOpt qd.rows ++ " rows in "
        ++ toFixed2Opt qd.execution_time ++ "s\n\n"
        ++ "📊 **Data Retrieved Successfully**\n\n"
        ++ "**Data saved to:** `" ++ path ++ "`\n\n"
        ++ savedDataTail := by
    unfold successRest
    rw [if_neg h4, h5]
    dsimp only
    rw [h6]
    simp only [Bool.true_eq_false, if_false]
    rw [h7]
    dsimp only
    rw [h8]
    dsimp only
    rw [h9]
  exact ⟨hs.1, hr, hs.2⟩

/-- Witness for the amended C1 at the concrete scenario `wC1`. -/
theorem c1_csv_path_composite_witness :
    (queryWithNaturalLanguage wC1 0 "Show me tech stocks with PE under 20").text
        = (if chooseModel 0 = "gpt-5" ∧ 0 ≥ maxFailures then modelSwitchText else "")
          ++ successRest wC1
              { communication := some "Here are the results"
                sql_query := some "SELECT * FROM stocks" } :=
  (c1_csv_path_composite wC1 0 "Show me tech stocks with PE under 20" _ _ _ _ rowsC1 _
    rfl rfl rfl (by decide) rfl rfl rfl rfl rfl).1

/-- C2 is false as stated: in `wC2` the chat-intent call succeeds,
yet the invocation ends with failure count 1 (not the reset value 0),
because the query-execution fetch throws and the catch-all handler
increments the counter. -/
theorem c2_counterexample :
    (∃ r : Resp ChatJson, wC2.chat = Outcome.value r ∧ r.ok = true)
      ∧ (queryWithNaturalLanguage wC2 0 "p").count = 1
      ∧ ¬(queryWithNaturalLanguage wC2 0 "p").count = 0 :=
  ⟨⟨_, rfl, rfl⟩, by decide, by decide⟩

/-- C2 amended: the failure counter increments on a failed chat-intent
response whose status is not 401 (a 401 never increments it), and it
also increments on any exception thrown during the sequence,
including after a successful chat-intent response; a successful,
fully-parsed chat-intent response resets it to zero, and a
non-throwing invocation keeps it there. -/
theorem c2_failure_counter_transitions :
    (∀ (w : World) (fc : Nat) (p : String) (r : Resp ChatJson),
        w.chat = .value r → r.ok = false → r.status = 401 →
        (queryWithNaturalLanguage w fc p).count = fc)
      ∧ (∀ (w : World) (fc : Nat) (p : String) (r : Resp ChatJson) (t : String),
          w.chat = .value r → r.ok = false → r.status ≠ 401 → r.textResult = .value t →
          (queryWithNaturalLanguage w fc p).count = fc + 1)
      ∧ (∀ (w : World) (fc : Nat) (p : String) (r : Resp ChatJson) (cj : ChatJson),
          w.chat = .value r → r.ok = true → r.jsonResult = .value cj →
          postChatNoThrow w cj = true →
          (queryWithNaturalLanguage w fc p).count = 0)
      ∧ (∀ (w : World) (fc : Nat) (p : String) (e : ExcInfo),
          firstExc w = some e →
          (queryWithNaturalLanguage w fc p).count = countBeforeCatch w fc + 1) :=
  ⟨fun w fc p r h1 h2 h3 => chat401_count w fc p r h1 h2 h3,
   fun w fc p r t h1 h2 h3 h4 => chatFail_count w fc p r t h1 h2 h3 h4,
   fun w fc p r cj h1 h2 h3 h4 => (success_shape w fc p r cj h1 h2 h3 h4).2,
   fun w fc p e h => (exc_shape w fc p e h).2⟩

/-- Witness for the amended C2: the exception conjunct at `wC2`. -/
theorem c2_failure_counter_transitions_witness :
    (queryWithNaturalLanguage wC2 5 "p").count = countBeforeCatch wC2 5 + 1 :=
  c2_failure_counter_transitions.2.2.2 wC2 5 "p"
    { isError := true, name := "FetchError", message := "socket hang up" } (by decide)

/-- C3: the model identifier sent in the chat-intent request is
"gpt-5" exactly when the pre-call failure count is at least the
threshold 3, and "gpt-4.1" otherwise; after exactly 3 consecutive
non-auth failures the next call selects the fallback model. -/
theorem c3_model_selection :
    (∀ (w : World) (fc : Nat) (p : String),
        (queryWithNaturalLanguage w fc p).chatBody = some (chatRequestBody fc p))
      ∧ (∀ (fc : Nat) (p : String),
          (chatRequestBody fc p).model = if 3 ≤ fc then "gpt-5" else "gpt-4.1")
      ∧ (∀ (w1 w2 w3 : World) (p1 p2 p3 : String) (r1 r2 r3 : Resp ChatJson)
            (t1 t2 t3 : String),
          w1.chat = .value r1 → r1.ok = false → r1.status ≠ 401 → r1.textResult = .value t1 →
          w2.chat = .value r2 → r2.ok = false → r2.status ≠ 401 → r2.textResult = .value t2 →
          w3.chat = .value r3 → r3.ok = false → r3.status ≠ 401 → r3.textResult = .value t3 →
          (queryWithNaturalLanguage w3
              (queryWithNaturalLanguage w2
                (queryWithNaturalLanguage w1 0 p1).count p2).count p3).count = 3
            ∧ ∀ (w4 : World) (p4 : String),
                (queryWithNaturalLanguage w4
                    (queryWithNaturalLanguage w3
                      (queryWithNaturalLanguage w2
                        (queryWithNaturalLanguage w1 0 p1).count p2).count p3).count p4).chatBody
                  = some (chatRequestBody 3 p4)
                ∧ (chatRequestBody 3 p4).model = "gpt-5") := by
  refine ⟨chatBody_always, ?_, ?_⟩
  · intro fc p
    rfl
  · intro w1 w2 w3 p1 p2 p3 r1 r2 r3 t1 t2 t3 h1 h2 h3 h4 h5 h6 h7 h8 h9 h10 h11 h12
    have e1 := chatFail_count w1 0 p1 r1 t1 h1 h2 h3 h4
    have e2 := chatFail_count w2 (queryWithNaturalLanguage w1 0 p1).count p2 r2 t2 h5 h6 h7 h8
    have e3 := chatFail_count w3
      (queryWithNaturalLanguage w2 (queryWithNaturalLanguage w1 0 p1).count p2).count p3 r3 t3
      h9 h10 h11 h12
    have hc : (queryWithNaturalLanguage w3
        (queryWithNaturalLanguage w2
          (queryWithNaturalLanguage w1 0 p1).count p2).count p3).count = 3 := by
      rw [e3, e2, e1]
    refine ⟨hc, ?_⟩
    intro w4 p4
    rw [hc]
    exact ⟨chatBody_always w4 3 p4, rfl⟩

/-- Witness for C3: three consecutive 500-failures starting from 0
reach count 3, and the request built at count 3 carries "gpt-5". -/
theorem c3_model_selection_witness :
    ((queryWithNaturalLanguage w500
        (queryWithNaturalLanguage w500
          (queryWithNaturalLanguage w500 0 "q").count "q").count "q").count = 3)
      ∧ (chatRequestBody 3 "q").model = "gpt-5" := by
  have h := c3_model_selection.2.2 w500 w500 w500 "q" "q" "q" r500 r500 r500 "boom" "boom" "boom"
    rfl rfl (by decide) rfl rfl rfl (by decide) rfl rfl rfl (by decide) rfl
  exact ⟨h.1, (h.2 w500 "q").2⟩

/-- C4: on every successful, fully-parsed, non-throwing chat-intent
response the output is the model-switch notice followed by the branch
text, the notice is non-empty exactly when the selected model was the
fallback and the pre-call failure count reached the threshold, the
fallback is selected exactly when the pre-call count is at least 3,
and the notice is computed from the pre-call count even though the
counter itself ends the step at zero. -/
theorem c4_fallback_notice (w : World) (fc : Nat) (p : String) (r : Resp ChatJson)
    (cj : ChatJson)
    (h1 : w.chat = .value r) (h2 : r.ok = true) (h3 : r.jsonResult = .value cj)
    (h4 : postChatNoThrow w cj = true) :
    ((queryWithNaturalLanguage w fc p).text
        = (if chooseModel fc = "gpt-5" ∧ fc ≥ maxFailures then modelSwitchText else "")
          ++ successRest w cj)
      ∧ ((if chooseModel fc = "gpt-5" ∧ fc ≥ maxFailures then modelSwitchText else "") ≠ ""
          ↔ chooseModel fc = "gpt-5" ∧ 3 ≤ fc)
      ∧ (chooseModel fc = "gpt-5" ↔ 3 ≤ fc)
      ∧ (queryWithNaturalLanguage w fc p).count = 0 := by
  have hs := success_shape w fc p r cj h1 h2 h3 h4
  have hcm : chooseModel fc = "gpt-5" ↔ 3 ≤ fc := by
    unfold chooseModel maxFailures
    by_cases h3le : 3 ≤ fc
    · rw [if_pos h3le]
      simp [h3le]
    · rw [if_neg h3le]
      constructor
      · intro habs
        exact absurd habs (by decide)
      · intro hc
        exact absurd hc h3le
  refine ⟨hs.1, ?_, hcm, hs.2⟩
  by_cases hc : chooseModel fc = "gpt-5" ∧ fc ≥ maxFailures
  · rw [if_pos hc]
    constructor
    · intro _
      exact ⟨hc.1, hc.2⟩
    · intro _
      decide
  · rw [if_neg hc]
    constructor
    · intro hne
      exact absurd rfl hne
    · intro hcond
      exact absurd ⟨hcond.1, hcond.2⟩ hc

/-- Witness for C4: at pre-call count 3 with a successful blank-query
chat response, the output carries the notice prefix. -/
theorem c4_fallback_notice_witness :
    (queryWithNaturalLanguage wC4 3 "p").text
      = (if chooseModel 3 = "gpt-5" ∧ 3 ≥ maxFailures then modelSwitchText else "")
        ++ successRest wC4 { communication := some "hello", sql_query := none } :=
  (c4_fallback_notice wC4 3 "p" _ _ rfl rfl rfl (by decide)).1

/-- C7 is false as stated: a blank (whitespace-only, hence non-empty)
prompt is not rejected: the invocation issues a network call, the
failure counter changes, and the fixed instructional message is not
returned. -/
theorem c7_counterexample :
    jsTrim " " = ""
      ∧ (handleCallTool "query_data" (some " ") "token" 0 w500).calls = 1
      ∧ (handleCallTool "query_data" (some " ") "token" 0 w500).count = 1
      ∧ (handleCallTool "query_data" (some " ") "token" 0 w500).text
          = "API error (status 500): boom" :=
  ⟨by decide, by decide, by decide, by decide⟩

/-- C7 amended: for a missing or empty prompt (the values the JS
falsiness test `!prompt` rejects), `execute` returns the fixed
instructional message, issues zero network calls, and leaves the
failure counter unchanged. -/
theorem c7_empty_prompt_rejected (w : World) (token : String) (fc : Nat) (h : token ≠ "") :
    handleCallTool "query_data" none token fc w
        = ⟨promptMissingText, fc, 0, none⟩
      ∧ handleCallTool "query_data" (some "") token fc w
        = ⟨promptMissingText, fc, 0, none⟩ := by
  refine ⟨?_, ?_⟩ <;>
    · unfold handleCallTool
      rw [if_neg (show ¬("query_data" ≠ "query_data") by simp), if_neg h]
      try rfl

/-- Witness for the amended C7 at a concrete token and world. -/
theorem c7_empty_prompt_rejected_witness :
    handleCallTool "query_data" none "token" 0 w500
      = ⟨promptMissingText, 0, 0, none⟩ :=
  (c7_empty_prompt_rejected w500 "token" 0 (by decide)).1

/-- C8: whenever an exception is thrown anywhere during the
orchestration, the invocation returns plain text (the distinct
timeout message for an `AbortError`, otherwise the connectivity
message carrying the exception text) and increments the failure
counter as of the moment of the throw. -/
theorem c8_exception_handling (w : World) (fc : Nat) (p : String) (e : ExcInfo)
    (h : firstExc w = some e) :
    (queryWithNaturalLanguage w fc p).text
        = (if e.isError = true ∧ e.name = "AbortError" then
            "Request timed out. The query might be too complex. Try simplifying your question."
          else "Error connecting to the data portal: " ++ e.message)
      ∧ (queryWithNaturalLanguage w fc p).count = countBeforeCatch w fc + 1 :=
  ⟨by rw [(exc_shape w fc p e h).1]; rfl, (exc_shape w fc p e h).2⟩

/-- Witness for C8: an `AbortError` thrown by the chat fetch. -/
theorem c8_exception_handling_witness :
    ((queryWithNaturalLanguage wAbort 2 "p").text
        = (if abortExc.isError = true ∧ abortExc.name = "AbortError" then
            "Request timed out. The query might be too complex. Try simplifying your question."
          else "Error connecting to the data portal: " ++ abortExc.message)
      ∧ (queryWithNaturalLanguage wAbort 2 "p").count = countBeforeCatch wAbort 2 + 1) :=
  c8_exception_handling wAbort 2 "p" abortExc (by decide)

/-- C10: when the chat-intent call succeeds with a non-blank query
and the execution call responds with a non-success status (without
throwing), the invocation returns the failure message with the raw
error body and the failure counter ends at 0, the value set by the
reset after the successful chat-intent response. -/
theorem c10_query_failure_no_escalation (w : World) (fc : Nat) (p : String)
    (r : Resp ChatJson) (cj : ChatJson) (qr : Resp QueryJson) (t : String)
    (h1 : w.chat = .value r) (h2 : r.ok = true) (h3 : r.jsonResult = .value cj)
    (h4 : jsTrim (cj.sql_query.getD "") ≠ "")
    (h5 : w.query = .value qr) (h6 : qr.ok = false) (h7 : qr.textResult = .value t) :
    (queryWithNaturalLanguage w fc p).text
        = (if chooseModel fc = "gpt-5" ∧ fc ≥ maxFailures then modelSwitchText else "")
          ++ ("Query execution failed: " ++ t)
      ∧ (queryWithNaturalLanguage w fc p).count = 0 := by
  have hpost : postChatNoThrow w cj = true := by
    unfold postChatNoThrow
    rw [if_neg h4, h5]
    dsimp only
    rw [h6, h7]
    rfl
  have hs := success_shape w fc p r cj h1 h2 h3 hpost
  have hr : successRest w cj = "Query execution failed: " ++ t := by
    unfold successRest
    rw [if_neg h4, h5]
    dsimp only
    rw [h6, h7]
    rfl
  exact ⟨by rw [hs.1, hr], hs.2⟩


/-- Step equation of `runCSV` outside quotes. -/
theorem runCSV_false_cons (c : Char) (cs : List Char) (field : List Char)
    (record : List String) (acc : List (List String)) :
    runCSV (c :: cs) false field record acc
      = if c = '\"' then runCSV cs true field record acc
        else if c = ',' then runCSV cs false [] (String.mk field.reverse :: record) acc
        else if c = '\n' then runCSV cs false [] [] ((String.mk field.reverse :: record).reverse :: acc)
        else runCSV cs false (c :: field) record acc := by
  rw [runCSV.eq_def]
  split <;> simp_all

/-- Step equation of `runCSV` inside quotes, ordinary character. -/
theorem runCSV_quoted_other (c : Char) (cs : List Char) (field : List Char)
    (record : List String) (acc : List (List String)) (h : c ≠ '\"') :
    runCSV (c :: cs) true field record acc = runCSV cs true (c :: field) record acc := by
  rw [runCSV.eq_def]
  split <;> simp_all

/-- Step equation of `runCSV` at a closing quote. -/
theorem runCSV_quoted_close (cs : List Char) (field : List Char)
    (record : List String) (acc : List (List String)) (h : cs.head? ≠ some '\"') :
    runCSV ('\"' :: cs) true field record acc = runCSV cs false field record acc := by
  rcases cs with _ | ⟨c, cs'⟩
  · rfl
  · have hc : c ≠ '\"' := by simpa using h
    rw [runCSV.eq_def]
    split <;> try simp_all
    rename_i hne heq
    exact absurd heq.1.symm hne

/-- Rebuilding a string from its characters is the identity. -/
theorem String_mk_data (s : String) : String.mk s.data = s := rfl

/-- Scanning delimiter-free text accumulates it into the current
field. -/
theorem runCSV_scan_safe (l : List Char)
    (hl : l.any (fun c => c = ',' || c = '\"' || c = '\n') = false) :
    ∀ (rest field : List Char) (record : List String) (acc : List (List String)),
      runCSV (l ++ rest) false field record acc
        = runCSV rest false (l.reverse ++ field) record acc := by
  induction l with
  | nil => intro rest field record acc; simp
  | cons c l ih =>
    intro rest field record acc
    rw [List.any_cons, Bool.or_eq_false_iff] at hl
    have hc := hl.1
    simp only [Bool.or_eq_false_iff, decide_eq_false_iff_not] at hc
    rw [List.cons_append, runCSV_false_cons, if_neg hc.1.2, if_neg hc.1.1, if_neg hc.2,
      ih hl.2 rest (c :: field) record acc]
    simp [List.append_assoc]

/-- Scanning a quote-escaped body followed by its closing quote
recovers the unescaped text. -/
theorem runCSV_scan_quoted (l : List Char) :
    ∀ (rest field : List Char) (record : List String) (acc : List (List String)),
      rest.head? ≠ some '\"' →
      runCSV (escData l ++ ('\"' :: rest)) true field record acc
        = runCSV rest false (l.reverse ++ field) record acc := by
  induction l with
  | nil =>
    intro rest field record acc h
    simp only [escData, List.nil_append, List.reverse_nil]
    exact runCSV_quoted_close rest field record acc h
  | cons c l ih =>
    intro rest field record acc h
    by_cases hc : c = '\"'
    · subst hc
      simp only [escData, eq_self_iff_true, if_true, List.cons_append]
      rw [show runCSV ('\"' :: '\"' :: (escData l ++ ('\"' :: rest))) true field record acc
          = runCSV (escData l ++ ('\"' :: rest)) true ('\"' :: field) record acc from rfl,
        ih rest ('\"' :: field) record acc h]
      simp [List.append_assoc]
    · simp only [escData, if_neg hc, List.cons_append]
      rw [runCSV_quoted_other c _ field record acc hc, ih rest (c :: field) record acc h]
      simp [List.append_assoc]

/-- Scanning one written value (quoted or not) recovers its plain
text. -/
theorem runCSV_scan_value (sv : String) :
    ∀ (rest field : List Char) (record : List String) (acc : List (List String)),
      rest.head? ≠ some '\"' →
      runCSV ((if hasSpecial sv then "\"" ++ escapeQuotes sv ++ "\"" else sv).data ++ rest)
          false field record acc
        = runCSV rest false (sv.data.reverse ++ field) record acc := by
  intro rest field record acc h
  by_cases hs : hasSpecial sv = true
  · rw [if_pos hs]
    have hdata : ("\"" ++ escapeQuotes sv ++ "\"").data
        = '\"' :: (escData sv.data ++ ['\"']) := by
      simp [String.data_append, escapeQuotes]
    rw [hdata]
    simp only [List.cons_append, List.append_assoc, List.singleton_append]
    rw [runCSV_false_cons, if_pos rfl]
    exact runCSV_scan_quoted sv.data rest field record acc h
  · rw [if_neg hs]
    have hsafe : sv.data.any (fun c => c = ',' || c = '\"' || c = '\n') = false := by
      unfold hasSpecial at hs
      simpa using hs
    exact runCSV_scan_safe sv.data hsafe rest field record acc

/-- Scanning one written CSV cell recovers the plain cell text. -/
theorem runCSV_scan_cell (row : Row) (col : String) :
    ∀ (rest field : List Char) (record : List String) (acc : List (List String)),
      rest.head? ≠ some '\"' →
      runCSV ((csvCell row col).data ++ rest) false field record acc
        = runCSV rest false ((csvPlainCell row col).data.reverse ++ field) record acc := by
  intro rest field record acc h
  unfold csvCell csvPlainCell
  rcases hv : rowGet row col with _ | v
  · simp
  · rcases v with _ | n | s | b
    · simp
    · exact runCSV_scan_value (jsToString (.jnum n)) rest field record acc h
    · exact runCSV_scan_value (jsToString (.jstr s)) rest field record acc h
    · exact runCSV_scan_value (jsToString (.jbool b)) rest field record acc h

/-- Scanning one newline-terminated record of written fields recovers
the list of plain fields, provided each field scans back to its plain
text. -/
theorem runCSV_scan_record : ∀ (cells : List (String × String)),
    (∀ pr ∈ cells, ∀ (rest field : List Char) (record : List String)
        (acc : List (List String)), rest.head? ≠ some '\"' →
        runCSV (pr.1.data ++ rest) false field record acc
          = runCSV rest false (pr.2.data.reverse ++ field) record acc) →
    cells ≠ [] →
    ∀ (rest : List Char) (record : List String) (acc : List (List String)),
      runCSV ((joinStr "," (cells.map (fun pr => pr.1))).data ++ ('\n' :: rest))
          false [] record acc
        = runCSV rest false [] []
            (((cells.map (fun pr => pr.2)).reverse ++ record).reverse :: acc) := by
  intro cells
  induction cells with
  | nil => intro _ hne; exact absurd rfl hne
  | cons pr cells ih =>
    intro hcell _ rest record acc
    rcases cells with _ | ⟨qr, cells'⟩
    · simp only [List.map_cons, List.map_nil, joinStr]
      rw [hcell pr (by simp) ('\n' :: rest) [] record acc (by simp)]
      rw [runCSV_false_cons, if_neg (show ¬('\n' = '\"') by decide),
        if_neg (show ¬('\n' = ',') by decide), if_pos rfl]
      simp
    · simp only [List.map_cons, joinStr, String.data_append,
        show ("," : String).data = [','] from rfl, List.append_assoc, List.singleton_append,
        List.cons_append, List.nil_append]
      rw [hcell pr (by simp)
        (',' :: ((joinStr "," (qr.1 :: List.map (fun pr => pr.1) cells')).data ++ '\n' :: rest))
        [] record acc (by simp)]
      rw [runCSV_false_cons, if_neg (show ¬(',' = '\"') by decide), if_pos rfl]
      have hrec := ih (fun qr2 hq => hcell qr2 (by simp [hq])) (by simp) rest
        (String.mk ((pr.2.data.reverse ++ []).reverse) :: record) acc
      simp only [List.map_cons] at hrec
      rw [hrec]
      simp [List.reverse_cons, List.append_assoc]

/-- Scanning the written data lines recovers every row as its plain
cells in column order. -/
theorem runCSV_scan_body (columns : List String) (hne : columns ≠ []) :
    ∀ (data : List Row) (acc : List (List String)),
      runCSV (csvBody data columns).data false [] [] acc
        = acc.reverse ++ data.map (fun row => columns.map (fun col => csvPlainCell row col)) := by
  intro data
  induction data with
  | nil =>
    intro acc
    rw [show csvBody [] columns = "" from rfl, show ("" : String).data = [] from rfl,
      show runCSV [] false [] [] acc = acc.reverse from rfl]
    simp
  | cons row rows ih =>
    intro acc
    rw [show csvBody (row :: rows) columns
        = joinStr "," (columns.map (csvCell row)) ++ "\n" ++ csvBody rows columns from rfl]
    have hdata : (joinStr "," (columns.map (csvCell row)) ++ "\n" ++ csvBody rows columns).data
        = (joinStr "," (columns.map (csvCell row))).data ++ ('\n' :: (csvBody rows columns).data) := by
      simp [String.data_append]
    rw [hdata]
    have hcells : ∀ pr ∈ columns.map (fun c => (csvCell row c, csvPlainCell row c)),
        ∀ (rest field : List Char) (record : List String) (acc2 : List (List String)),
        rest.head? ≠ some '\"' →
        runCSV (pr.1.data ++ rest) false field record acc2
          = runCSV rest false (pr.2.data.reverse ++ field) record acc2 := by
      intro pr hpr rest field record acc2 hh
      obtain ⟨c, _, rfl⟩ := List.mem_map.mp hpr
      exact runCSV_scan_cell row c rest field record acc2 hh
    have hrecord := runCSV_scan_record (columns.map (fun c => (csvCell row c, csvPlainCell row c)))
      hcells (by simp [hne]) ((csvBody rows columns).data) [] acc
    have hm1 : (columns.map (fun c => (csvCell row c, csvPlainCell row c))).map (fun pr => pr.1)
        = columns.map (csvCell row) := by
      simp
    have hm2 : (columns.map (fun c => (csvCell row c, csvPlainCell row c))).map (fun pr => pr.2)
        = columns.map (fun col => csvPlainCell row col) := by
      simp
    rw [hm1, hm2] at hrecord
    rw [hrecord]
    simp only [List.append_nil, List.reverse_reverse]
    rw [ih ((columns.map (fun col => csvPlainCell row col)) :: acc)]
    simp [List.reverse_cons, List.append_assoc]

/-- C9 amended: for a nonempty column list whose names contain no
comma, quote, or newline, parsing back the CSV content written by
`saveDataAsCSV` reproduces the header in the original column order
and every row as its cells in column order, with null/undefined cells
as empty strings and every other value as its plain string
conversion; in particular values containing commas, quotes, or
newlines survive the round trip thanks to the quote-wrapping with
doubled internal quotes. -/
theorem c9_csv_roundtrip (columns : List String) (data : List Row)
    (hne : columns ≠ [])
    (hsafe : columns.all (fun c => !hasSpecial c) = true) :
    csvParse (csvContent data columns)
      = columns :: data.map (fun row => columns.map (fun col => csvPlainCell row col)) := by
  unfold csvParse csvContent
  have hdata : (joinStr "," columns ++ "\n" ++ csvBody data columns).data
      = (joinStr "," columns).data ++ ('\n' :: (csvBody data columns).data) := by
    simp [String.data_append]
  rw [hdata]
  have hcells : ∀ pr ∈ columns.map (fun c => (c, c)),
      ∀ (rest field : List Char) (record : List String) (acc : List (List String)),
      rest.head? ≠ some '\"' →
      runCSV (pr.1.data ++ rest) false field record acc
        = runCSV rest false (pr.2.data.reverse ++ field) record acc := by
    intro pr hpr rest field record acc hh
    obtain ⟨c, hc, rfl⟩ := List.mem_map.mp hpr
    have hsp : hasSpecial c = false := by
      have := List.all_eq_true.mp hsafe c hc
      simpa using this
    have hsafec : c.data.any (fun ch => ch = ',' || ch = '\"' || ch = '\n') = false := by
      unfold hasSpecial at hsp
      simpa using hsp
    exact runCSV_scan_safe c.data hsafec rest field record acc
  have hrecord := runCSV_scan_record (columns.map (fun c => (c, c))) hcells
    (by simp [hne]) ((csvBody data columns).data) [] []
  have hm1 : (columns.map (fun c => (c, c))).map (fun pr => pr.1) = columns := by
    rw [List.map_map]
    exact List.map_id' columns
  have hm2 : (columns.map (fun c => (c, c))).map (fun pr => pr.2) = columns := by
    rw [List.map_map]
    exact List.map_id' columns
  rw [hm1, hm2] at hrecord
  rw [hrecord]
  simp only [List.append_nil, List.reverse_reverse]
  rw [runCSV_scan_body columns hne data [columns]]
  simp

/-- C9 is false as stated for arbitrary column lists: a column name
containing a comma is written unescaped into the header line, so
parsing splits it into two columns. -/
theorem c9_counterexample :
    csvParse (csvContent ([] : List Row) ["a,b"]) = [["a", "b"]]
      ∧ csvParse (csvContent ([] : List Row) ["a,b"])
          ≠ ["a,b"] :: ([] : List Row).map (fun row => ["a,b"].map (fun col => csvPlainCell row col)) :=
  ⟨by decide, by decide⟩

/-- Witness for the amended C9: a value containing a comma, quotes
and a newline, plus a null cell, round-trips. -/
theorem c9_csv_roundtrip_witness :
    csvParse (csvContent [[("t", JValue.jstr "a,\"b\"\nc")], [("t", JValue.jnull)]] ["t"])
      = ["t"] :: [[("t", JValue.jstr "a,\"b\"\nc")], [("t", JValue.jnull)]].map
          (fun row => ["t"].map (fun col => csvPlainCell row col)) :=
  c9_csv_roundtrip ["t"] [[("t", JValue.jstr "a,\"b\"\nc")], [("t", JValue.jnull)]]
    (by decide) (by decide)
/-- Witness for C10 at the concrete scenario `wC10`. -/
theorem c10_query_failure_no_escalation_witness :
    ((queryWithNaturalLanguage wC10 0 "p").text
        = (if chooseModel 0 = "gpt-5" ∧ 0 ≥ maxFailures then modelSwitchText else "")
          ++ ("Query execution failed: " ++ "syntax error at or near FROM")
      ∧ (queryWithNaturalLanguage wC10 0 "p").count = 0) :=
  c10_query_failure_no_escalation wC10 0 "p" _ _ _ _ rfl rfl rfl (by decide) rfl rfl rfl

end RiceStock
